import Mathlib

/-!
Shallow embedding of the webscrapper repository core:
the WebScraper class of `src/config-cli.js` (scrapeText, scrapeTextStructured,
scrapeMultiplePages, the redirect listener and the error classes under
`src/errors/`), and the BulkScraper of `src/bulk-scraper.js` (scrapeUrls,
resultsToCSV, the CLI success-rate statistic).

JavaScript strings are Lean `String`s; the DOM is a rose tree of element and
text nodes; playwright is modelled by a `PageBehavior` record describing what
navigation, the readiness wait and in-page evaluation would do; thrown
exceptions are `Except.error` values; `page.close()` calls are tracked by a
Boolean so that resource release can be reasoned about.
-/

/-! ### String helpers (structural versions of the JS string operations used) -/

/-- Whitespace test used for the JS `trim()` and the `\s` regexp class. -/
def isWSChar (c : Char) : Bool := c == ' ' || c == '\t' || c == '\n' || c == '\r'

/-- Character-list version of the JS `String.prototype.trim`. -/
def trimChars (cs : List Char) : List Char :=
  ((cs.dropWhile isWSChar).reverse.dropWhile isWSChar).reverse

/-- JS `s.trim()`. -/
def trimS (s : String) : String := ⟨trimChars s.data⟩

/-- One pass of the JS `replace(/\s+/g, ' ')`: the Boolean says whether the
previous character was whitespace (so the run is collapsed into one space). -/
def collapseChars : Bool → List Char → List Char
  | _, [] => []
  | prevWS, c :: cs =>
    if isWSChar c then
      if prevWS then collapseChars true cs else ' ' :: collapseChars true cs
    else c :: collapseChars false cs

/-- JS `s.replace(/\s+/g, ' ')`. -/
def collapseWS (s : String) : String := ⟨collapseChars false s.data⟩

/-- JS `Array.prototype.join(sep)`. -/
def joinSep (sep : String) : List String → String
  | [] => ""
  | p :: ps => match ps with
    | [] => p
    | _ :: _ => p ++ sep ++ joinSep sep ps

/-- JS `s.split(' ')` on a character list (used for the class attribute). -/
def splitSpaceAux : List Char → List Char → List (List Char)
  | [], acc => [acc.reverse]
  | c :: cs, acc =>
    if c == ' ' then acc.reverse :: splitSpaceAux cs []
    else splitSpaceAux cs (c :: acc)

/-- Does the first character list start with the second one? -/
def leadsWith : List Char → List Char → Bool
  | _, [] => true
  | [], _ :: _ => false
  | c :: cs, p :: ps => c == p && leadsWith cs ps

/-- Does the first character list contain the second one as a contiguous run? -/
def hasRun : List Char → List Char → Bool
  | [], pat => pat.isEmpty
  | c :: cs, pat => leadsWith (c :: cs) pat || hasRun cs pat

/-- JS `s.includes(pat)`. -/
def strContains (s pat : String) : Bool := hasRun s.data pat.data

/-- JS `a || d` for strings: `a` when it is a non-empty (truthy) string,
otherwise the default `d`. -/
def orNonEmpty (o : Option String) (d : String) : String :=
  match o with
  | some s => if s == "" then d else s
  | none => d

/-! ### The DOM model

An element node carries its tag name (lower case), its attribute list and its
children; a text node carries its character data.  This models the live
document tree that the in-page extraction functions of `config-cli.js` walk. -/

inductive Node where
  | elem (tag : String) (attrs : List (String × String)) (children : List Node)
  | text (s : String)
deriving Repr

mutual

def nodeDecEq : (a b : Node) → Decidable (a = b)
  | .text s, .text t =>
    match decEq s t with
    | isTrue h => isTrue (by rw [h])
    | isFalse h => isFalse (by intro hh; cases hh; exact h rfl)
  | .text _, .elem _ _ _ => isFalse (by intro hh; cases hh)
  | .elem _ _ _, .text _ => isFalse (by intro hh; cases hh)
  | .elem t1 a1 c1, .elem t2 a2 c2 =>
    match decEq t1 t2, decEq a1 a2, nodeListDecEq c1 c2 with
    | isTrue h1, isTrue h2, isTrue h3 => isTrue (by rw [h1, h2, h3])
    | isFalse h1, _, _ => isFalse (by intro hh; cases hh; exact h1 rfl)
    | _, isFalse h2, _ => isFalse (by intro hh; cases hh; exact h2 rfl)
    | _, _, isFalse h3 => isFalse (by intro hh; cases hh; exact h3 rfl)

def nodeListDecEq : (as bs : List Node) → Decidable (as = bs)
  | [], [] => isTrue rfl
  | [], _ :: _ => isFalse (by intro hh; cases hh)
  | _ :: _, [] => isFalse (by intro hh; cases hh)
  | a :: as, b :: bs =>
    match nodeDecEq a b, nodeListDecEq as bs with
    | isTrue h1, isTrue h2 => isTrue (by rw [h1, h2])
    | isFalse h1, _ => isFalse (by intro hh; cases hh; exact h1 rfl)
    | _, isFalse h2 => isFalse (by intro hh; cases hh; exact h2 rfl)

end

instance : DecidableEq Node := nodeDecEq

/-- The attribute value of an element (`none` on text nodes or absent keys). -/
def attrOf (n : Node) (key : String) : Option String :=
  match n with
  | .elem _ attrs _ => attrs.lookup key
  | .text _ => none

/-- The tag of a node (empty for text nodes). -/
def tagOf : Node → String
  | .elem t _ _ => t
  | .text _ => ""

/-- Does a node match a simple CSS selector?  `.name` matches by class token,
`#name` by id, anything else by tag name — the selector forms the repository
uses (`script`, `style`, `nav`, `footer`, `aside`, `.ads`, `.advertisement`,
section selectors such as `.missing`). -/
def nodeMatches (sel : String) : Node → Bool
  | .text _ => false
  | .elem t attrs _ =>
    match sel.data with
    | '.' :: rest => (splitSpaceAux ((attrs.lookup "class").getD "").data []).contains rest
    | '#' :: rest => ((attrs.lookup "id").getD "").data == rest
    | _ => t == sel

mutual

/-- One exclusion pass of `config-cli.js`:
`document.querySelectorAll(sel).forEach(el => el.remove())`.  Every element of
the tree matching `sel` is detached together with its subtree; the root itself
is kept (the scraper never excludes `body`). -/
def removeMatching (sel : String) : Node → Node
  | .text s => .text s
  | .elem t a cs => .elem t a (removeKids sel cs)

def removeKids (sel : String) : List Node → List Node
  | [] => []
  | c :: cs => if nodeMatches sel c then removeKids sel cs
               else removeMatching sel c :: removeKids sel cs

end

/-- The exclusion loop: `for (const selector of excludeSelectors) { ...remove... }`
(`scrapeText`) and `excludeSelectors.forEach(selector => ...)`
(`scrapeTextStructured`) — each selector is applied, in listed order, to the
tree left by the previous ones. -/
def applyExclusions (sels : List String) (t : Node) : Node :=
  sels.foldl (fun acc s => removeMatching s acc) t

mutual

/-- The proper descendants of a node, in document (preorder) order. -/
def childDescendants : Node → List Node
  | .text _ => []
  | .elem _ _ cs => descendantsList cs

def descendantsList : List Node → List Node
  | [] => []
  | c :: cs => c :: (childDescendants c ++ descendantsList cs)

end

mutual

/-- The `createTreeWalker(body, SHOW_TEXT)` loop of `scrapeText`: the trimmed,
non-empty text nodes below a node, in document order. -/
def textPieces : Node → List String
  | .text s => if trimS s == "" then [] else [trimS s]
  | .elem _ _ cs => textPiecesList cs

def textPiecesList : List Node → List String
  | [] => []
  | c :: cs => textPieces c ++ textPiecesList cs

end

mutual

/-- JS `element.textContent`: the concatenation of all text data below a node. -/
def textContent : Node → String
  | .text s => s
  | .elem _ _ cs => textContentList cs

def textContentList : List Node → String
  | [] => ""
  | c :: cs => textContent c ++ textContentList cs

end

/-- The tags whose text children the `otherText` tree walker rejects
(`excludedTags` in `scrapeTextStructured`, lower-cased here). -/
def otherTextExcludedTags : List String :=
  ["p", "a", "li", "h1", "h2", "h3", "h4", "h5", "h6"]

mutual

/-- The `otherText` tree walker of `scrapeTextStructured`: trimmed non-empty
text nodes whose immediate parent's tag is not in `otherTextExcludedTags`;
`ptag` is the tag of the current parent element. -/
def otherTexts (ptag : String) : Node → List String
  | .text s =>
    if otherTextExcludedTags.contains ptag then []
    else if trimS s == "" then [] else [trimS s]
  | .elem t _ cs => otherTextsList t cs

def otherTextsList (ptag : String) : List Node → List String
  | [] => []
  | c :: cs => otherTexts ptag c ++ otherTextsList ptag cs

end

mutual

/-- `document.querySelectorAll(sel)` from a root, every match paired with its
address (the path of child indices), so element identity is preserved; the
root itself participates, as it does for `document.querySelectorAll`. -/
def matchAddrs (sel : String) (path : List Nat) : Node → List (List Nat × Node)
  | .text _ => []
  | .elem t a cs =>
    (if nodeMatches sel (.elem t a cs) then [(path, Node.elem t a cs)] else []) ++
      matchAddrsList sel path 0 cs

def matchAddrsList (sel : String) (path : List Nat) (i : Nat) :
    List Node → List (List Nat × Node)
  | [] => []
  | c :: cs => matchAddrs sel (path ++ [i]) c ++ matchAddrsList sel path (i + 1) cs

end

/-- The structured record `extractFromElement` builds inside the page. -/
structure ExtractedData where
  headings : List (String × List String)
  paragraphs : List String
  otherText : List String
  links : List (String × String)
  lists : List (String × List String)
  images : List (String × String × String)
deriving Repr, DecidableEq

/-- Is the node an element with this tag? -/
def isTag (t : String) (n : Node) : Bool :=
  match n with
  | .elem tag _ _ => tag == t
  | .text _ => false

/-- Is the node one of `h1 .. h6`? -/
def isHeadingTag (n : Node) : Bool :=
  isTag "h1" n || isTag "h2" n || isTag "h3" n ||
    isTag "h4" n || isTag "h5" n || isTag "h6" n

/-- `extractFromElement` of `scrapeTextStructured` in `config-cli.js`:
headings per tag (empty tags omitted), paragraph texts, links with non-empty
text, lists with at least one non-empty item, images with a `src`, and the
`otherText` walker — all over the element's descendants in document order. -/
def extractFromElement (root : Node) : ExtractedData :=
  let ds := childDescendants root
  { headings :=
      (["h1", "h2", "h3", "h4", "h5", "h6"].map (fun tag =>
        (tag, ((ds.filter (isTag tag)).map (fun h => trimS (textContent h))).filter
          (fun s => s ≠ "")))).filter (fun p => p.2 ≠ [])
    paragraphs :=
      ((ds.filter (isTag "p")).map (fun p => trimS (textContent p))).filter
        (fun s => s ≠ "")
    otherText :=
      match root with
      | .elem t _ cs => otherTextsList t cs
      | .text _ => []
    links :=
      ((ds.filter (fun n => isTag "a" n && (attrOf n "href").isSome)).map
        (fun a => (trimS (textContent a), (attrOf a "href").getD ""))).filter
        (fun l => l.1 ≠ "")
    lists :=
      ((ds.filter (fun n => isTag "ul" n || isTag "ol" n)).map (fun l =>
        (tagOf l, (((childDescendants l).filter (isTag "li")).map
          (fun li => trimS (textContent li))).filter (fun s => s ≠ "")))).filter
        (fun l => l.2 ≠ [])
    images :=
      ((ds.filter (fun n => isTag "img" n && (attrOf n "src").isSome)).map
        (fun i => ((attrOf i "src").getD "", (attrOf i "alt").getD "",
          (attrOf i "title").getD ""))).filter (fun i => i.1 ≠ "") }

/-- A loaded document: `document.title` and the `body` element. -/
structure Doc where
  title : String
  body : Node
deriving Repr, DecidableEq

/-- The whole plain-text extraction of `scrapeText`: exclusions first, then the
text-node walk, `join(' ')`, `replace(/\s+/g, ' ')` and `trim()`. -/
def plainTextEval (ex : List String) (doc : Doc) : String :=
  trimS (collapseWS (joinSep " " (textPieces (applyExclusions ex doc.body))))

/-- One section of a sectioned structured result. -/
structure SectionData where
  id : String
  title : Option String
  data : ExtractedData
deriving Repr, DecidableEq

/-- The structured content `scrapeTextStructured`'s evaluate call returns:
either the whole-document extraction or the per-section list. -/
inductive StructuredContent where
  | whole (title : String) (data : ExtractedData)
  | sectioned (title : String) (sections : List SectionData)
deriving Repr, DecidableEq

/-- The `allSections` accumulation of `scrapeTextStructured`: for each section
selector in listed order, its matches in document order, deduplicated by
element identity (address) against everything collected so far. -/
def sectionUnion (sels : List String) (body : Node) : List (List Nat × Node) :=
  sels.foldl (fun acc sel =>
    acc ++ ((matchAddrs sel [] body).filter
      (fun pn => !(acc.any (fun q => q.1 == pn.1))))) []

/-- One section record: id = `section.id || section.className || section-<i>`,
title = trimmed text of the first heading descendant (else null), plus
`extractFromElement`. -/
def mkSection (idx : Nat) (pn : List Nat × Node) : SectionData :=
  { id := orNonEmpty (attrOf pn.2 "id")
      (orNonEmpty (attrOf pn.2 "class") ("section-" ++ toString idx))
    title := ((childDescendants pn.2).find? isHeadingTag).map
      (fun h => trimS (textContent h))
    data := extractFromElement pn.2 }

/-- The whole in-page evaluate of `scrapeTextStructured`: exclusions, then
either whole-document extraction, or section collection with the
`SECTIONS_NOT_FOUND` error payload (the selectors) when the union is empty. -/
def structuredEval (ex sels : List String) (doc : Doc) :
    Except (List String) StructuredContent :=
  let body := applyExclusions ex doc.body
  match sels with
  | [] => .ok (.whole doc.title (extractFromElement body))
  | _ :: _ =>
    let u := sectionUnion sels body
    match u with
    | [] => .error sels
    | _ :: _ => .ok (.sectioned doc.title (u.mapIdx (fun i pn => mkSection i pn)))

/-! ### Configuration (the WebScraper constructor of `config-cli.js`) -/

/-- The resolved option record `this.options`. -/
structure Options where
  browser : String
  headless : Bool
  timeout : Nat
  sectionSelectors : List String
  waitForSelector : Option String
  excludeSelectors : List String
  userAgent : String
  followRedirects : Bool
deriving Repr, DecidableEq

/-- The default exclusion list of the constructor. -/
def defaultExcludeSelectors : List String :=
  ["script", "style", "nav", "footer", "aside", ".ads", ".advertisement"]

/-- The caller-supplied option bag (`none` = the key is absent). -/
structure InputOptions where
  browser : Option String := none
  headless : Option Bool := none
  timeout : Option Nat := none
  sectionSelectors : Option (List String) := none
  waitForSelector : Option String := none
  excludeSelectors : Option (List String) := none
  userAgent : Option String := none
  followRedirects : Option Bool := none
deriving Repr, DecidableEq

/-- The default user agent string of the constructor. -/
def defaultUserAgent : String :=
  "Mozilla/5.0 (Windows NT 10.0; Win64; x64) AppleWebKit/537.36 (KHTML, like Gecko) Chrome/91.0.4472.124 Safari/537.36"

/-- The WebScraper constructor: each `options.x || default` with JS truthiness
(`0`, `''`, absent are falsy; a present array, even empty, is truthy),
`headless: options.headless !== false` and
`followRedirects: options.followRedirects !== false`. -/
def mkOptions (i : InputOptions) : Options :=
  { browser := orNonEmpty i.browser "chromium"
    headless := !(i.headless == some false)
    timeout := match i.timeout with
      | some t => if t == 0 then 30000 else t
      | none => 30000
    sectionSelectors := i.sectionSelectors.getD []
    waitForSelector := match i.waitForSelector with
      | some s => if s == "" then none else some s
      | none => none
    excludeSelectors := i.excludeSelectors.getD defaultExcludeSelectors
    userAgent := orNonEmpty i.userAgent defaultUserAgent
    followRedirects := !(i.followRedirects == some false) }

/-! ### The scrape orchestration of `scrapeText` / `scrapeTextStructured` -/

/-- One response observed by the `page.on('response', ...)` listener:
its URL, HTTP status, optional `Location` header, and whether its request was
`redirectedFrom()` another request. -/
structure RespInfo where
  url : String
  status : Nat
  locationHeader : Option String
  redirectedFrom : Bool
deriving Repr, DecidableEq

/-- `status === 301 || 302 || 303 || 307 || 308`. -/
def isRedirectStatus (s : Nat) : Bool :=
  s == 301 || s == 302 || s == 303 || s == 307 || s == 308

/-- The listener's filter: `response.url() === url || response.request().redirectedFrom()`. -/
def respListened (url : String) (r : RespInfo) : Bool :=
  r.url == url || r.redirectedFrom

/-- `response.headers()['location'] || response.url()`. -/
def respLocation (r : RespInfo) : String :=
  orNonEmpty r.locationHeader r.url

/-- The body of the `page.on('response', ...)` listener: a qualifying
redirect-status response overwrites `redirectInfo`, any other response leaves
it alone. -/
def redirectStep (url : String) (acc : Option (Nat × String)) (r : RespInfo) :
    Option (Nat × String) :=
  if respListened url r && isRedirectStatus r.status then
    some (r.status, respLocation r)
  else acc

/-- The value `redirectInfo` holds after all responses fired: the listener
overwrites it on each qualifying redirect-status response, so the last one
wins. -/
def redirectInfoOf (url : String) (rs : List RespInfo) : Option (Nat × String) :=
  rs.foldl (redirectStep url) none

/-- What playwright would do for one request: the responses the listener would
see, whether `goto` / `waitForSelector` / `evaluate` throw (and with what
message), and the loaded document. -/
structure PageBehavior where
  responses : List RespInfo
  navError : Option String
  waitError : Option String
  evalError : Option String
  doc : Doc
deriving Repr, DecidableEq

/-- The error taxonomy: the `RedirectError`, `SectionNotFoundError` and
`SelectorTimeoutError` classes of `src/errors/`, plus an opaque wrapper for
any other thrown error. -/
inductive ScrapeError where
  | redirectErr (status : Nat) (location : String) (originalUrl : String)
  | sectionErr (selectors : List String) (url : String)
  | selectorTimeoutErr (selectors : List String) (url : String)
  | otherErr (message : String)
deriving Repr, DecidableEq

/-- The `message` each error class builds in its constructor. -/
def errMessage : ScrapeError → String
  | .redirectErr s l _ =>
    "Redirection is disallowed. Redirect detected (" ++ toString s ++ ") to: " ++ l
  | .sectionErr sels _ => "No sections found with selectors: " ++ joinSep ", " sels
  | .selectorTimeoutErr sels _ => "Timeout waiting for selector(s): " ++ joinSep ", " sels
  | .otherErr m => m

/-- The record `scrapeText` returns (timestamps are wall-clock and omitted). -/
structure TextResult where
  url : String
  text : String
  length : Nat
deriving Repr, DecidableEq

/-- The record `scrapeTextStructured` returns. -/
structure StructResult where
  url : String
  content : StructuredContent
deriving Repr, DecidableEq

/-- A tag naming which outcome kind an `Except` result is. -/
def outcomeKind : Except ScrapeError α → String
  | .ok _ => "success"
  | .error (.redirectErr _ _ _) => "redirect"
  | .error (.sectionErr _ _) => "sectionsNotFound"
  | .error (.selectorTimeoutErr _ _) => "selectorTimeout"
  | .error (.otherErr _) => "failure"

/-- `WebScraper.scrapeText` of `config-cli.js`, step for step.  The second
component records whether `page.close()` ran before the call returned or
threw: the code closes the page on the success path and on the redirect path,
but an exception from `goto`, `waitForSelector` or `evaluate` propagates
through the bare `catch (error) { throw error; }` without a close. -/
def scrapeText (opts : Options) (url : String) (b : PageBehavior) :
    Except ScrapeError TextResult × Bool :=
  let rinfo := if opts.followRedirects then none else redirectInfoOf url b.responses
  match b.navError with
  | some m => (.error (.otherErr m), false)
  | none =>
    match rinfo with
    | some sl => (.error (.redirectErr sl.1 sl.2 url), true)
    | none =>
      match opts.waitForSelector with
      | some _ =>
        match b.waitError with
        | some m => (.error (.otherErr m), false)
        | none =>
          match b.evalError with
          | some m => (.error (.otherErr m), false)
          | none =>
            let t := plainTextEval opts.excludeSelectors b.doc
            (.ok { url := url, text := t, length := t.length }, true)
      | none =>
        match b.evalError with
        | some m => (.error (.otherErr m), false)
        | none =>
          let t := plainTextEval opts.excludeSelectors b.doc
          (.ok { url := url, text := t, length := t.length }, true)

/-- `WebScraper.scrapeTextStructured` of `config-cli.js`, step for step, with
the same page-close tracking; the `SECTIONS_NOT_FOUND` payload of the evaluate
result is turned into a thrown `SectionNotFoundError(selectors, url)` after
closing the page. -/
def scrapeTextStructured (opts : Options) (url : String) (b : PageBehavior) :
    Except ScrapeError StructResult × Bool :=
  let rinfo := if opts.followRedirects then none else redirectInfoOf url b.responses
  match b.navError with
  | some m => (.error (.otherErr m), false)
  | none =>
    match rinfo with
    | some sl => (.error (.redirectErr sl.1 sl.2 url), true)
    | none =>
      match opts.waitForSelector with
      | some _ =>
        match b.waitError with
        | some m => (.error (.otherErr m), false)
        | none =>
          match b.evalError with
          | some m => (.error (.otherErr m), false)
          | none =>
            match structuredEval opts.excludeSelectors opts.sectionSelectors b.doc with
            | .error sels => (.error (.sectionErr sels url), true)
            | .ok c => (.ok { url := url, content := c }, true)
      | none =>
        match b.evalError with
        | some m => (.error (.otherErr m), false)
        | none =>
          match structuredEval opts.excludeSelectors opts.sectionSelectors b.doc with
          | .error sels => (.error (.sectionErr sels url), true)
          | .ok c => (.ok { url := url, content := c }, true)

/-! ### Batch processing (`scrapeMultiplePages` of `config-cli.js`,
`BulkScraper.scrapeUrls` of `bulk-scraper.js`) -/

/-- One entry of the results array a batch builds. -/
inductive ItemResult where
  | okText (r : TextResult)
  | okStructured (r : StructResult)
  | redirect (url : String) (status : Nat) (location : String) (message : String)
  | sectionsNotFound (url : String) (selectors : List String) (message : String)
  | failure (url : String) (error : String)
deriving Repr, DecidableEq

/-- The kind tag of a batch item. -/
def itemKind : ItemResult → String
  | .okText _ => "success"
  | .okStructured _ => "success"
  | .redirect _ _ _ _ => "redirect"
  | .sectionsNotFound _ _ _ => "sectionsNotFound"
  | .failure _ _ => "failure"

/-- The `catch` of `scrapeMultiplePages`: a `RedirectError` becomes a redirect
record keyed by `error.originalUrl`, a `SectionNotFoundError` becomes a
sections-not-found record keyed by `error.url`, and anything else becomes
`{ url, error: error.message }` with the loop's url. -/
def convertItem (url : String) : Except ScrapeError ItemResult → ItemResult
  | .ok r => r
  | .error e =>
    match e with
    | .redirectErr s l orig => .redirect orig s l (errMessage (.redirectErr s l orig))
    | .sectionErr sels u => .sectionsNotFound u sels (errMessage (.sectionErr sels u))
    | e => .failure url (errMessage e)

/-- `WebScraper.scrapeMultiplePages`: the sequential loop pushing one converted
result per URL onto `results`.  `f` abstracts the per-URL scrape attempt
(`scrapeText` or `scrapeTextStructured` applied to that URL's page
behaviour). -/
def scrapeMultiplePages (f : String → Except ScrapeError ItemResult)
    (urls : List String) : List ItemResult :=
  urls.foldl (fun results url => results ++ [convertItem url (f url)]) []

/-- The chunking loop of `BulkScraper.scrapeUrls` for a positive batch size
`m + 1`: `for (let i = 0; i < urls.length; i += batchSize) slice(i, i + batchSize)`. -/
def chunkedPos (m : Nat) : List α → List (List α)
  | [] => []
  | x :: xs => (x :: xs).take (m + 1) :: chunkedPos m ((x :: xs).drop (m + 1))
termination_by l => l.length
decreasing_by simp [List.length_drop]; omega

/-- The chunk list of `BulkScraper.scrapeUrls`.  With `batchSize = 0` the JS
loop would never advance; the claims only concern `batchSize ≥ 1` (the spec's
`BatchJob` invariant; the CLI default is 5), so that case is mapped to the
empty list purely for termination. -/
def chunked (batchSize : Nat) (l : List α) : List (List α) :=
  match batchSize with
  | 0 => []
  | m + 1 => chunkedPos m l

/-- `BulkScraper.scrapeUrls`: process each chunk through
`scrapeMultiplePages`, appending the chunk's results to the running list. -/
def scrapeUrls (f : String → Except ScrapeError ItemResult)
    (urls : List String) (batchSize : Nat) : List ItemResult :=
  (chunked batchSize urls).foldl
    (fun results batch => results ++ scrapeMultiplePages f batch) []

/-! ### CSV serialization and the success-rate statistic of `bulk-scraper.js` -/

/-- The fields of a result object that `resultsToCSV` and the CLI statistics
read (a plain-text success has `text`/`length`, a structured success has
`title`/`paragraphs`, an error record has `error`; absent fields are `none`). -/
structure RawResult where
  url : Option String := none
  error : Option String := none
  length : Option Nat := none
  text : Option String := none
  title : Option String := none
  timestamp : Option String := none
  paragraphs : Option (List String) := none
deriving Repr, DecidableEq

/-- JS truthiness of a possibly-absent string field. -/
def jsTruthyStr : Option String → Bool
  | some s => !(s == "")
  | none => false

/-- `result.length || result.text?.length || 0` with JS falsiness of `0`. -/
def csvLengthVal (r : RawResult) : Nat :=
  match r.length with
  | some n => if n == 0 then (r.text.map String.length).getD 0 else n
  | none => (r.text.map String.length).getD 0

/-- `"${field}"`. -/
def quoteField (s : String) : String := "\"" ++ s ++ "\""

/-- One data row of `BulkScraper.resultsToCSV`. -/
def csvRow (r : RawResult) : String :=
  joinSep ","
    [quoteField (r.url.getD ""),
     (if jsTruthyStr r.error then "false" else "true"),
     toString (csvLengthVal r),
     quoteField (r.title.getD ""),
     quoteField (r.error.getD ""),
     quoteField (r.timestamp.getD "")]

/-- The `csvRows` array of `resultsToCSV`: the header row followed by one row
per result, in order. -/
def csvRows (results : List RawResult) : List String :=
  joinSep "," ["url", "success", "text_length", "title", "error", "timestamp"] ::
    results.map csvRow

/-- `BulkScraper.resultsToCSV`: `csvRows.join('\n')`. -/
def resultsToCSV (results : List RawResult) : String :=
  joinSep "\n" (csvRows results)

/-- `results.filter(r => !r.error).length` of the CLI statistics. -/
def successCount (results : List RawResult) : Nat :=
  (results.filter (fun r => !jsTruthyStr r.error)).length

/-- The success-rate statistic printed by the bulk CLI:
`(results.filter(r => !r.error).length / results.length) * 100`.  JS number
division yields `NaN` for `0 / 0`; `none` models that `NaN`, `some q` a real
number. -/
def successRate (results : List RawResult) : Option ℚ :=
  if results.length == 0 then none
  else some ((successCount results : ℚ) / (results.length : ℚ) * 100)

/-! ### Shared concrete fixtures used by the claim theorems -/

/-- An empty document. -/
def docEmpty : Doc := { title := "", body := .elem "body" [] [] }

/-- A per-URL outcome function for concrete batch runs: `"b"` fails, every
other URL succeeds as a plain-text scrape. -/
def fWitness : String → Except ScrapeError ItemResult := fun u =>
  if u == "b" then .error (.otherErr "boom")
  else .ok (.okText { url := u, text := "", length := 0 })

/-- The result object of a structured success with one paragraph of five
characters: no `length` and no `text` field, only structured fields. -/
def structuredSuccessRow : RawResult :=
  { url := some "u", title := some "t", timestamp := some "ts",
    paragraphs := some ["abcde"] }

/-! ### List helpers for the batch lemmas -/

theorem foldl_push_eq_map (g : α → β) (l : List α) (acc : List β) :
    l.foldl (fun r a => r ++ [g a]) acc = acc ++ l.map g := by
  induction l generalizing acc with
  | nil => simp
  | cons x xs ih => simp [ih]

theorem foldl_cat_eq_flatten (k : α → List β) (L : List α) (acc : List β) :
    L.foldl (fun r b => r ++ k b) acc = acc ++ (L.map k).flatten := by
  induction L generalizing acc with
  | nil => simp
  | cons x xs ih => simp [ih]

theorem chunkedPos_flatten (m : Nat) (g : α → β) :
    (l : List α) → ((chunkedPos m l).map (List.map g)).flatten = l.map g
  | [] => by simp [chunkedPos]
  | x :: xs => by
      rw [chunkedPos, List.map_cons, List.flatten_cons,
        chunkedPos_flatten m g (List.drop (m + 1) (x :: xs)),
        ← List.map_append, List.take_append_drop]
termination_by l => l.length
decreasing_by simp [List.length_drop]; omega

theorem scrapeMultiplePages_eq_map (f : String → Except ScrapeError ItemResult)
    (urls : List String) :
    scrapeMultiplePages f urls = urls.map (fun u => convertItem u (f u)) := by
  unfold scrapeMultiplePages
  rw [foldl_push_eq_map]
  simp

theorem scrapeUrls_eq_map (f : String → Except ScrapeError ItemResult)
    (urls : List String) (m : Nat) :
    scrapeUrls f urls (m + 1) = urls.map (fun u => convertItem u (f u)) := by
  unfold scrapeUrls chunked
  rw [foldl_cat_eq_flatten]
  rw [show (chunkedPos m urls).map (scrapeMultiplePages f) =
      (chunkedPos m urls).map (List.map (fun u => convertItem u (f u))) from
    List.map_congr_left (fun b _ => scrapeMultiplePages_eq_map f b)]
  rw [chunkedPos_flatten]
  simp

/-! ### Claim theorems: batch ordering and isolation -/

/-- C1: for every finite URL list and every batch size of at least 1,
`BulkScraper.scrapeUrls` (driving `WebScraper.scrapeMultiplePages` chunk by
chunk) returns exactly one result per input URL, and the result at index `i`
is the converted outcome of the URL at index `i` — input order is preserved
regardless of chunking. -/
theorem scrapeUrls_preserves_order (f : String → Except ScrapeError ItemResult)
    (urls : List String) (batchSize : Nat) (h : 1 ≤ batchSize) :
    (scrapeUrls f urls batchSize).length = urls.length ∧
    ∀ i (hi : i < urls.length),
      (scrapeUrls f urls batchSize)[i]? =
        some (convertItem (urls.get ⟨i, hi⟩) (f (urls.get ⟨i, hi⟩))) := by
  obtain ⟨m, rfl⟩ : ∃ m, batchSize = m + 1 := ⟨batchSize - 1, by omega⟩
  rw [scrapeUrls_eq_map]
  constructor
  · simp
  · intro i hi
    rw [List.getElem?_map, List.getElem?_eq_getElem hi]
    simp

/-- Witness for C1 at a concrete three-URL batch of size 2 (so two chunks)
with a failing middle URL. -/
theorem scrapeUrls_preserves_order_witness :
    (scrapeUrls fWitness ["a", "b", "c"] 2).length = 3 :=
  (scrapeUrls_preserves_order fWitness ["a", "b", "c"] 2 (by omega)).1

/-- C2: `scrapeMultiplePages` produces exactly one result per URL whatever the
per-URL outcomes are (no failure aborts the batch), and the `catch` converts a
`RedirectError` into a redirect record, a `SectionNotFoundError` into a
sections-not-found record, and any other error into `{url, error: message}`. -/
theorem scrapeMultiplePages_isolates_failures
    (f : String → Except ScrapeError ItemResult) (urls : List String) :
    (scrapeMultiplePages f urls).length = urls.length ∧
    (∀ i (hi : i < urls.length),
      (scrapeMultiplePages f urls)[i]? =
        some (convertItem (urls.get ⟨i, hi⟩) (f (urls.get ⟨i, hi⟩)))) ∧
    (∀ url s l orig, convertItem url (.error (.redirectErr s l orig)) =
      .redirect orig s l (errMessage (.redirectErr s l orig))) ∧
    (∀ url sels u, convertItem url (.error (.sectionErr sels u)) =
      .sectionsNotFound u sels (errMessage (.sectionErr sels u))) ∧
    (∀ url m, convertItem url (.error (.otherErr m)) = .failure url m) := by
  refine ⟨?_, ?_, fun _ _ _ _ => rfl, fun _ _ _ => rfl, fun _ _ => rfl⟩
  · rw [scrapeMultiplePages_eq_map]; simp
  · intro i hi
    rw [scrapeMultiplePages_eq_map, List.getElem?_map, List.getElem?_eq_getElem hi]
    simp

/-- Witness for C2 at a concrete two-URL batch whose second URL fails. -/
theorem scrapeMultiplePages_isolates_failures_witness :
    (scrapeMultiplePages fWitness ["a", "b"]).length = 2 :=
  (scrapeMultiplePages_isolates_failures fWitness ["a", "b"]).1

/-! ### Claim theorems: CSV serialization and success rate -/

/-- C8 counterexample: for a structured success whose paragraph concatenation
has length 5, `resultsToCSV` emits 0 in the length column (it reads only the
`length`/`text` fields, which structured results do not have), so the claimed
"paragraph-text concatenation length for structured successes" is false. -/
theorem resultsToCSV_structured_counterexample :
    csvRow structuredSuccessRow = "\"u\",true,0,\"t\",\"\",\"ts\"" ∧
    (joinSep "" (structuredSuccessRow.paragraphs.getD [])).length = 5 := by
  exact ⟨rfl, rfl⟩

/-- C8 (amended): CSV output is the fixed header row
`url,success,text_length,title,error,timestamp` followed by one row per
outcome regardless of kind, in order; the length column is the plain-text
`length`/`text` value (0 for structured successes and non-success kinds); the
error column is empty for successes; a success row carries `true` and a
failure row carries `false` together with its error message. -/
theorem resultsToCSV_rows (results : List RawResult) :
    (csvRows results).length = results.length + 1 ∧
    (csvRows results).head? = some "url,success,text_length,title,error,timestamp" ∧
    (∀ i (hi : i < results.length),
      (csvRows results)[i + 1]? = some (csvRow (results.get ⟨i, hi⟩))) ∧
    csvRow { url := some "u", text := some "abcde", length := some 5,
             timestamp := some "ts" } = "\"u\",true,5,\"\",\"\",\"ts\"" ∧
    csvRow { url := some "v", error := some "boom", timestamp := some "ts" } =
      "\"v\",false,0,\"\",\"boom\",\"ts\"" := by
  refine ⟨by simp [csvRows], rfl, ?_, rfl, rfl⟩
  intro i hi
  show (csvRows results)[i + 1]? = _
  rw [csvRows]
  rw [List.getElem?_cons_succ, List.getElem?_map, List.getElem?_eq_getElem hi]
  simp

/-- Witness for C8 at a one-element result list. -/
theorem resultsToCSV_rows_witness :
    (csvRows [structuredSuccessRow]).length = 1 + 1 :=
  (resultsToCSV_rows [structuredSuccessRow]).1

/-- C9 counterexample: for an empty outcome list the printed success rate is
the JS `0 / 0 = NaN` (modelled `none`), not the claimed 0. -/
theorem successRate_empty_counterexample :
    successRate [] = none ∧ ¬ successRate [] = some 0 := by
  refine ⟨rfl, ?_⟩
  intro h
  simp [successRate] at h

/-- C9 (amended): for a non-empty outcome list the statistic equals
`successes / total * 100`; for an empty list the code computes `0 / 0`, which
is `NaN` (modelled `none`), not 0. -/
theorem successRate_def (results : List RawResult) (h : results ≠ []) :
    successRate results =
      some ((successCount results : ℚ) / (results.length : ℚ) * 100) ∧
    successRate [] = none := by
  refine ⟨?_, rfl⟩
  rw [successRate, if_neg]
  simp [List.length_eq_zero, h]

/-- Witness for C9 at a one-element result list: one success out of one. -/
theorem successRate_def_witness : successRate [structuredSuccessRow] = some 100 := by
  rw [(successRate_def [structuredSuccessRow] (by simp)).1]
  norm_num [successCount, jsTruthyStr, structuredSuccessRow]

/-! ### The redirect listener lemma -/

theorem redirectStep_foldl (url : String) (rs : List RespInfo) :
    ∀ acc : Option (Nat × String),
      (rs.foldl (redirectStep url) acc = acc ∧
        ∀ r ∈ rs, (respListened url r && isRedirectStatus r.status) = false) ∨
      (∃ r2 ∈ rs, (respListened url r2 && isRedirectStatus r2.status) = true ∧
        rs.foldl (redirectStep url) acc = some (r2.status, respLocation r2)) := by
  induction rs with
  | nil => intro acc; exact Or.inl ⟨rfl, by simp⟩
  | cons r rs ih =>
    intro acc
    rcases ih (redirectStep url acc r) with ⟨heq, hall⟩ | ⟨r2, hmem, hq, heq⟩
    · by_cases hr : (respListened url r && isRedirectStatus r.status) = true
      · refine Or.inr ⟨r, by simp, hr, ?_⟩
        rw [List.foldl_cons, heq, redirectStep, if_pos hr]
      · refine Or.inl ⟨?_, ?_⟩
        · rw [List.foldl_cons, heq, redirectStep, if_neg hr]
        · intro x hx
          rcases List.mem_cons.mp hx with rfl | hx2
          · simpa using hr
          · exact hall x hx2
    · exact Or.inr ⟨r2, List.mem_cons_of_mem _ hmem, hq, by rw [List.foldl_cons, heq]⟩

/-- With `followRedirects=true` the listener is never installed, so no
`scrapeText` outcome is a redirect. -/
theorem scrapeText_follow_no_redirect (opts : Options) (url : String)
    (b : PageBehavior) (h : opts.followRedirects = true) :
    outcomeKind (scrapeText opts url b).1 ≠ "redirect" := by
  unfold scrapeText
  cases hn : b.navError <;>
    cases hw : opts.waitForSelector <;>
      cases hwe : b.waitError <;>
        cases he : b.evalError <;>
          simp [outcomeKind, h, hn, hw, hwe, he]

/-- With `followRedirects=true` no `scrapeTextStructured` outcome is a
redirect either. -/
theorem scrapeTextStructured_follow_no_redirect (opts : Options) (url : String)
    (b : PageBehavior) (h : opts.followRedirects = true) :
    outcomeKind (scrapeTextStructured opts url b).1 ≠ "redirect" := by
  unfold scrapeTextStructured
  cases hn : b.navError <;>
    cases hw : opts.waitForSelector <;>
      cases hwe : b.waitError <;>
        cases he : b.evalError <;>
          cases hse : structuredEval opts.excludeSelectors opts.sectionSelectors b.doc <;>
            simp [outcomeKind, h, hn, hw, hwe, he, hse]

/-! ### Claim theorems: redirect policy (C4) -/

/-- C4: with `followRedirects=false`, if any response of the navigation chain
for the requested URL (the listener's filter accepts exactly the responses
whose URL is the requested one or whose request was redirected from another)
carries a redirect status 301/302/303/307/308, then both scrape entry points
abort with a `RedirectError` carrying a detected chain response's status, its
`Location` header (falling back to the response's own URL), and the original
URL, closing the page first; and with `followRedirects=true` — the
constructor's default — no call ever produces a redirect outcome. -/
theorem redirect_detected (opts : Options) (url : String) (b : PageBehavior)
    (hf : opts.followRedirects = false)
    (hnav : b.navError = none)
    (r : RespInfo) (hr : r ∈ b.responses)
    (hchain : respListened url r = true)
    (hst : isRedirectStatus r.status = true) :
    (∃ r2 ∈ b.responses, respListened url r2 = true ∧
      isRedirectStatus r2.status = true ∧
      (scrapeText opts url b).1 =
        Except.error (.redirectErr r2.status (respLocation r2) url) ∧
      (scrapeTextStructured opts url b).1 =
        Except.error (.redirectErr r2.status (respLocation r2) url) ∧
      (scrapeText opts url b).2 = true ∧
      (scrapeTextStructured opts url b).2 = true) ∧
    (mkOptions {}).followRedirects = true ∧
    (∀ (opts2 : Options) (url2 : String) (b2 : PageBehavior),
      opts2.followRedirects = true →
      outcomeKind (scrapeText opts2 url2 b2).1 ≠ "redirect" ∧
      outcomeKind (scrapeTextStructured opts2 url2 b2).1 ≠ "redirect") := by
  refine ⟨?_, rfl, ?_⟩
  · rcases redirectStep_foldl url b.responses none with ⟨_, hall⟩ | ⟨r2, hmem, hq, heq⟩
    · exact absurd (hall r hr) (by simp [hchain, hst])
    · rcases Bool.and_eq_true_iff.mp hq with ⟨hq1, hq2⟩
      have hinfo : redirectInfoOf url b.responses = some (r2.status, respLocation r2) := heq
      refine ⟨r2, hmem, hq1, hq2, ?_, ?_, ?_, ?_⟩ <;>
        simp [scrapeText, scrapeTextStructured, hf, hnav, hinfo]
  · intro opts2 url2 b2 h2
    exact ⟨scrapeText_follow_no_redirect opts2 url2 b2 h2,
      scrapeTextStructured_follow_no_redirect opts2 url2 b2 h2⟩

/-- The options of a scraper constructed with `followRedirects: false`. -/
def redirOpts : Options := mkOptions { followRedirects := some false }

/-- A navigation whose chain contains one 302 response with a Location header. -/
def redirResp : RespInfo :=
  { url := "https://old.example", status := 302,
    locationHeader := some "https://new.example", redirectedFrom := false }

/-- The page behaviour of that navigation. -/
def redirBehavior : PageBehavior :=
  { responses := [redirResp], navError := none, waitError := none,
    evalError := none, doc := docEmpty }

/-- Witness for C4: the 302 fixture of the spec produces
`RedirectDetected{status: 302, location: "https://new.example"}`. -/
theorem redirect_detected_witness :
    (scrapeText redirOpts "https://old.example" redirBehavior).1 =
      Except.error (.redirectErr 302 "https://new.example" "https://old.example") := by
  obtain ⟨⟨r2, hmem, _, _, hout, _, _, _⟩, _, _⟩ :=
    redirect_detected redirOpts "https://old.example" redirBehavior rfl rfl
      redirResp (by simp [redirBehavior]) (by decide) (by decide)
  have h2 : r2 = redirResp := by simpa [redirBehavior] using hmem
  subst h2
  exact hout

/-! ### Claim theorems: page release (C5) -/

/-- C5 counterexample: when navigation throws, `scrapeText` propagates the
exception through its bare `catch (error) { throw error; }` without ever
calling `page.close()` — the page is not released on that exit path, so the
claim that the page is released on every exit path is false. -/
theorem page_not_released_on_nav_error :
    (scrapeText (mkOptions {}) "https://a.example"
      { responses := [], navError := some "net::ERR_CONNECTION_REFUSED",
        waitError := none, evalError := none, doc := docEmpty }).2 = false ∧
    outcomeKind (scrapeText (mkOptions {}) "https://a.example"
      { responses := [], navError := some "net::ERR_CONNECTION_REFUSED",
        waitError := none, evalError := none, doc := docEmpty }).1 = "failure" := by
  exact ⟨rfl, rfl⟩

/-- C5 (amended): exactly one outcome is produced per call, and the page is
released precisely on the success path and the typed redirect /
sections-not-found paths; when navigation, the readiness wait or the in-page
evaluation throws, the error propagates with the page still open. -/
theorem page_released_iff_typed_path (opts : Options) (url : String)
    (b : PageBehavior) :
    ((scrapeText opts url b).2 = true ↔
      outcomeKind (scrapeText opts url b).1 = "success" ∨
      outcomeKind (scrapeText opts url b).1 = "redirect") ∧
    ((scrapeTextStructured opts url b).2 = true ↔
      outcomeKind (scrapeTextStructured opts url b).1 = "success" ∨
      outcomeKind (scrapeTextStructured opts url b).1 = "redirect" ∨
      outcomeKind (scrapeTextStructured opts url b).1 = "sectionsNotFound") := by
  constructor
  · unfold scrapeText
    cases hf : opts.followRedirects <;>
      cases hn : b.navError <;>
        cases hri : redirectInfoOf url b.responses <;>
          cases hw : opts.waitForSelector <;>
            cases hwe : b.waitError <;>
              cases he : b.evalError <;>
                simp [outcomeKind, hf, hn, hri, hw, hwe, he]
  · unfold scrapeTextStructured
    cases hf : opts.followRedirects <;>
      cases hn : b.navError <;>
        cases hri : redirectInfoOf url b.responses <;>
          cases hw : opts.waitForSelector <;>
            cases hwe : b.waitError <;>
              cases he : b.evalError <;>
                cases hse : structuredEval opts.excludeSelectors opts.sectionSelectors b.doc <;>
                  simp [outcomeKind, hf, hn, hri, hw, hwe, he, hse]

/-! ### Claim theorems: selector timeout (C6) -/

/-- The options of a scraper configured with a ready-selector. -/
def optsWait : Options := mkOptions { waitForSelector := some "#content" }

/-- A navigation where the ready-selector wait times out. -/
def timeoutBehavior : PageBehavior :=
  { responses := [], navError := none,
    waitError := some "Timeout 30000ms exceeded.",
    evalError := none, doc := docEmpty }

/-- C6: when the configured `waitForSelector` never appears, the playwright
timeout error propagates as an untyped error — the outcome kind is the opaque
`failure`, not a typed selector-timeout, and the batch `catch` records it as a
generic `{url, error}` item; the `SelectorTimeoutError` class exists (with
this message shape) but no scrape path ever constructs it. -/
theorem selector_timeout_is_opaque_failure :
    (scrapeTextStructured optsWait "https://a.example" timeoutBehavior).1 =
      Except.error (.otherErr "Timeout 30000ms exceeded.") ∧
    outcomeKind
      (scrapeTextStructured optsWait "https://a.example" timeoutBehavior).1 =
      "failure" ∧
    convertItem "https://a.example"
      (Except.error (.otherErr "Timeout 30000ms exceeded.")) =
      .failure "https://a.example" "Timeout 30000ms exceeded." ∧
    errMessage (.selectorTimeoutErr ["#content"] "https://a.example") =
      "Timeout waiting for selector(s): #content" := by
  exact ⟨rfl, rfl, rfl, rfl⟩

/-! ### Exclusion lemmas: no element matching an applied exclusion selector
survives the exclusion pass -/

theorem descendantsList_cons (c : Node) (cs : List Node) :
    descendantsList (c :: cs) = c :: (childDescendants c ++ descendantsList cs) := by
  simp [descendantsList]

theorem nodeMatches_removeMatching (sel sel2 : String) (c : Node) :
    nodeMatches sel (removeMatching sel2 c) = nodeMatches sel c := by
  cases c with
  | text s => simp [removeMatching]
  | elem t a cs => simp [removeMatching, nodeMatches]

mutual

theorem removeMatching_clears (sel : String) : (t : Node) →
    ∀ d ∈ childDescendants (removeMatching sel t), nodeMatches sel d = false
  | .text s => by simp [removeMatching, childDescendants]
  | .elem t a cs => by
      have h := removeKids_clears sel cs
      simpa [removeMatching, childDescendants] using h

theorem removeKids_clears (sel : String) : (cs : List Node) →
    ∀ d ∈ descendantsList (removeKids sel cs), nodeMatches sel d = false
  | [] => by simp [removeKids, descendantsList]
  | c :: cs => by
      have htail := removeKids_clears sel cs
      by_cases hm : nodeMatches sel c = true
      · intro d hd
        rw [show removeKids sel (c :: cs) = removeKids sel cs from by
          simp [removeKids, hm]] at hd
        exact htail d hd
      · have hhead := removeMatching_clears sel c
        have hb : nodeMatches sel c = false := by simpa using hm
        intro d hd
        rw [show removeKids sel (c :: cs) =
            removeMatching sel c :: removeKids sel cs from by
          simp [removeKids, hb], descendantsList_cons] at hd
        rcases List.mem_cons.mp hd with h1 | h12
        · rw [h1, nodeMatches_removeMatching]; exact hb
        · rcases List.mem_append.mp h12 with h2 | h3
          · exact hhead d h2
          · exact htail d h3

end

mutual

theorem removeMatching_keeps_clear (sel sel2 : String) : (t : Node) →
    (∀ d ∈ childDescendants t, nodeMatches sel d = false) →
    ∀ d ∈ childDescendants (removeMatching sel2 t), nodeMatches sel d = false
  | .text s => by simp [removeMatching]
  | .elem t a cs => fun h => by
      have h2 : ∀ d ∈ descendantsList cs, nodeMatches sel d = false := by
        intro d hd
        exact h d (by rw [show childDescendants (.elem t a cs) = descendantsList cs
          from by simp [childDescendants]]; exact hd)
      have h3 := removeKids_keeps_clear sel sel2 cs h2
      simpa [removeMatching, childDescendants] using h3

theorem removeKids_keeps_clear (sel sel2 : String) : (cs : List Node) →
    (∀ d ∈ descendantsList cs, nodeMatches sel d = false) →
    ∀ d ∈ descendantsList (removeKids sel2 cs), nodeMatches sel d = false
  | [] => by simp [removeKids]
  | c :: cs => fun h => by
      have hmem : ∀ x, x ∈ descendantsList (c :: cs) ↔
          (x = c ∨ x ∈ childDescendants c ∨ x ∈ descendantsList cs) := by
        intro x
        rw [descendantsList_cons]
        simp [List.mem_cons, List.mem_append]
      have hc : nodeMatches sel c = false := h c ((hmem c).mpr (Or.inl rfl))
      have hcd : ∀ d ∈ childDescendants c, nodeMatches sel d = false :=
        fun d hd => h d ((hmem d).mpr (Or.inr (Or.inl hd)))
      have hcs : ∀ d ∈ descendantsList cs, nodeMatches sel d = false :=
        fun d hd => h d ((hmem d).mpr (Or.inr (Or.inr hd)))
      by_cases hm : nodeMatches sel2 c = true
      · intro d hd
        rw [show removeKids sel2 (c :: cs) = removeKids sel2 cs from by
          simp [removeKids, hm]] at hd
        exact removeKids_keeps_clear sel sel2 cs hcs d hd
      · have hb : nodeMatches sel2 c = false := by simpa using hm
        intro d hd
        rw [show removeKids sel2 (c :: cs) =
            removeMatching sel2 c :: removeKids sel2 cs from by
          simp [removeKids, hb], descendantsList_cons] at hd
        rcases List.mem_cons.mp hd with h1 | h12
        · rw [h1, nodeMatches_removeMatching]; exact hc
        · rcases List.mem_append.mp h12 with h2 | h3
          · exact removeMatching_keeps_clear sel sel2 c hcd d h2
          · exact removeKids_keeps_clear sel sel2 cs hcs d h3

end

theorem applyExclusions_cons (s : String) (ss : List String) (t : Node) :
    applyExclusions (s :: ss) t = applyExclusions ss (removeMatching s t) := rfl

theorem applyExclusions_keeps_clear (sel : String) (ss : List String) :
    ∀ (t : Node), (∀ d ∈ childDescendants t, nodeMatches sel d = false) →
      ∀ d ∈ childDescendants (applyExclusions ss t), nodeMatches sel d = false := by
  induction ss with
  | nil => intro t h; simpa [applyExclusions] using h
  | cons s ss2 ih =>
    intro t h
    rw [applyExclusions_cons]
    exact ih (removeMatching s t) (removeMatching_keeps_clear sel s t h)

/-- After the exclusion loop no proper descendant of the tree matches any of
the applied selectors: the first pass for a selector removes all of its
matches, and later passes only remove nodes. -/
theorem applyExclusions_clears (sels : List String) :
    ∀ (t : Node) (sel : String), sel ∈ sels →
      ∀ d ∈ childDescendants (applyExclusions sels t), nodeMatches sel d = false := by
  induction sels with
  | nil => simp
  | cons s ss ih =>
    intro t sel hsel
    rw [applyExclusions_cons]
    rcases List.mem_cons.mp hsel with rfl | h2
    · exact applyExclusions_keeps_clear sel ss (removeMatching sel t)
        (removeMatching_clears sel t)
    · exact ih (removeMatching s t) sel h2

/-! ### Claim theorems: sections not found (C3) -/

theorem structuredEval_sections_empty (ex sels : List String) (doc : Doc)
    (hne : sels ≠ [])
    (hu : sectionUnion sels (applyExclusions ex doc.body) = []) :
    structuredEval ex sels doc = .error sels := by
  cases sels with
  | nil => exact absurd rfl hne
  | cons a as =>
    simp [structuredEval, hu]

/-- C3: whenever section selectors are configured (non-empty) and their union
matches zero elements of the (exclusion-stripped) document, and the call
otherwise reaches extraction, the outcome of `scrapeTextStructured` is the
thrown `SectionNotFoundError` carrying the configured selectors list and the
URL — never a success, so never an empty or partial `Success`. -/
theorem sections_not_found_outcome (opts : Options) (url : String)
    (b : PageBehavior)
    (hsel : opts.sectionSelectors ≠ [])
    (hnav : b.navError = none)
    (hwait : b.waitError = none)
    (heval : b.evalError = none)
    (hred : opts.followRedirects = true ∨ redirectInfoOf url b.responses = none)
    (hu : sectionUnion opts.sectionSelectors
      (applyExclusions opts.excludeSelectors b.doc.body) = []) :
    (scrapeTextStructured opts url b).1 =
      Except.error (.sectionErr opts.sectionSelectors url) ∧
    outcomeKind (scrapeTextStructured opts url b).1 = "sectionsNotFound" ∧
    (scrapeTextStructured opts url b).2 = true ∧
    ∀ r, (scrapeTextStructured opts url b).1 ≠ Except.ok r := by
  have hse : structuredEval opts.excludeSelectors opts.sectionSelectors b.doc =
      .error opts.sectionSelectors :=
    structuredEval_sections_empty _ _ _ hsel hu
  have hmain : (scrapeTextStructured opts url b) =
      (Except.error (.sectionErr opts.sectionSelectors url), true) := by
    unfold scrapeTextStructured
    rcases hred with hfr | hri
    · cases hw : opts.waitForSelector <;>
        simp [hfr, hnav, hwait, heval, hw, hse]
    · cases hf : opts.followRedirects <;>
        cases hw : opts.waitForSelector <;>
          simp [hf, hri, hnav, hwait, heval, hw, hse]
  rw [hmain]
  exact ⟨rfl, rfl, rfl, fun r h => by cases h⟩

/-- A scraper configured with `sectionSelectors: ['.missing']` and no
exclusions. -/
def optsMissing : Options :=
  mkOptions { sectionSelectors := some [".missing"], excludeSelectors := some [] }

/-- A fixture document with no element matching `.missing`. -/
def docHello : Doc :=
  { title := "", body := .elem "body" [] [.elem "p" [] [.text "Hello"]] }

/-- A clean navigation of that fixture. -/
def behaviorHello : PageBehavior :=
  { responses := [], navError := none, waitError := none, evalError := none,
    doc := docHello }

/-- Witness for C3: the spec's `.missing` fixture produces
`SectionsNotFound{selectors: ['.missing']}`. -/
theorem sections_not_found_witness :
    (scrapeTextStructured optsMissing "https://a.example" behaviorHello).1 =
      Except.error (.sectionErr [".missing"] "https://a.example") :=
  (sections_not_found_outcome optsMissing "https://a.example" behaviorHello
    (by decide) rfl rfl rfl (Or.inl rfl)
    (by simp [optsMissing, mkOptions, behaviorHello, docHello, sectionUnion,
      applyExclusions, matchAddrs, matchAddrsList, nodeMatches, splitSpaceAux])).1

/-! ### Claim theorems: exclusions before extraction (C7) -/

/-- The spec's exclusion fixture: a script and a paragraph. -/
def exampleDocC7 : Doc :=
  { title := ""
    body := .elem "body" []
      [.elem "script" [] [.text "alert(1)"],
       .elem "p" [] [.text "Hello"]] }

/-- C7: the exclusion selectors are applied, in listed order, before any
extraction, after which no surviving element matches any of them (so excluded
subtrees contribute to no output field); on the spec's fixture with
`excludeSelectors=['script','style']` the plain-text output is exactly
`"Hello"` — it contains `"Hello"` and not `"alert"` — and the structured
output likewise contains only the paragraph `"Hello"`. -/
theorem exclusions_apply_before_extraction :
    (∀ (sels : List String) (doc : Doc) (sel : String), sel ∈ sels →
      ∀ d ∈ childDescendants (applyExclusions sels doc.body),
        nodeMatches sel d = false) ∧
    plainTextEval ["script", "style"] exampleDocC7 = "Hello" ∧
    strContains (plainTextEval ["script", "style"] exampleDocC7) "Hello" = true ∧
    strContains (plainTextEval ["script", "style"] exampleDocC7) "alert" = false ∧
    structuredEval ["script", "style"] [] exampleDocC7 =
      .ok (.whole "" { headings := [], paragraphs := ["Hello"], otherText := [],
                       links := [], lists := [], images := [] }) := by
  have hp : plainTextEval ["script", "style"] exampleDocC7 = "Hello" := by
    simp [plainTextEval, exampleDocC7, applyExclusions, removeMatching, removeKids,
      nodeMatches, textPieces, textPiecesList, joinSep, collapseWS, collapseChars,
      trimS, trimChars, isWSChar, splitSpaceAux]
  refine ⟨fun sels doc sel h => applyExclusions_clears sels doc.body sel h,
    hp, ?_, ?_, ?_⟩
  · rw [hp]; decide
  · rw [hp]; decide
  · simp [structuredEval, exampleDocC7, applyExclusions, removeMatching,
      removeKids, nodeMatches, splitSpaceAux, extractFromElement,
      childDescendants, descendantsList, isTag, attrOf, tagOf, textContent,
      textContentList, otherTextsList, otherTexts, otherTextExcludedTags,
      trimS, trimChars, isWSChar]

/-- Witness for C7: the surviving `<p>` element of the fixture indeed does not
match the applied `script` selector. -/
theorem exclusions_apply_before_extraction_witness :
    nodeMatches "script" (Node.elem "p" [] [Node.text "Hello"]) = false := by
  have h := exclusions_apply_before_extraction.1 ["script", "style"] exampleDocC7
    "script" (by simp)
  refine h _ ?_
  rw [show childDescendants (applyExclusions ["script", "style"] exampleDocC7.body) =
      [Node.elem "p" [] [Node.text "Hello"], Node.text "Hello"] from by
    simp [applyExclusions, exampleDocC7, removeMatching, removeKids, nodeMatches,
      childDescendants, descendantsList, splitSpaceAux]]
  simp

/-! ### Claim theorems: default exclusions (C10) -/

/-- A fixture with noise subtrees matched by the constructor's default
exclusion list: a `<nav>`, an `.ads` container and a paragraph. -/
def exampleDocC10 : Doc :=
  { title := ""
    body := .elem "body" []
      [.elem "nav" [] [.text "NAVTEXT"],
       .elem "p" [] [.text "Hello"],
       .elem "div" [("class", "ads")] [.text "ADTEXT"]] }

/-- C10: a WebScraper constructed without `excludeSelectors` defaults to
`['script','style','nav','footer','aside','.ads','.advertisement']`; every
scrape applies this list before extraction, so no surviving element matches
any of those selectors, and text inside such subtrees (the `<nav>` text, the
`.ads` text) appears neither in the plain-text output nor in any structured
field even though the caller asked for no exclusions. -/
theorem default_exclusions (i : InputOptions) (h : i.excludeSelectors = none) :
    (mkOptions i).excludeSelectors = defaultExcludeSelectors ∧
    (∀ (doc : Doc) (sel : String), sel ∈ defaultExcludeSelectors →
      ∀ d ∈ childDescendants
        (applyExclusions (mkOptions i).excludeSelectors doc.body),
        nodeMatches sel d = false) ∧
    plainTextEval defaultExcludeSelectors exampleDocC10 = "Hello" ∧
    strContains (plainTextEval defaultExcludeSelectors exampleDocC10) "NAVTEXT" = false ∧
    strContains (plainTextEval defaultExcludeSelectors exampleDocC10) "ADTEXT" = false ∧
    structuredEval defaultExcludeSelectors [] exampleDocC10 =
      .ok (.whole "" { headings := [], paragraphs := ["Hello"], otherText := [],
                       links := [], lists := [], images := [] }) := by
  have he : (mkOptions i).excludeSelectors = defaultExcludeSelectors := by
    simp [mkOptions, h]
  have hp : plainTextEval defaultExcludeSelectors exampleDocC10 = "Hello" := by
    simp [plainTextEval, exampleDocC10, defaultExcludeSelectors, applyExclusions,
      removeMatching, removeKids, nodeMatches, textPieces, textPiecesList,
      joinSep, collapseWS, collapseChars, trimS, trimChars, isWSChar,
      splitSpaceAux]
  refine ⟨he, ?_, hp, ?_, ?_, ?_⟩
  · intro doc sel hsel
    rw [he]
    exact applyExclusions_clears defaultExcludeSelectors doc.body sel hsel
  · rw [hp]; decide
  · rw [hp]; decide
  · simp [structuredEval, exampleDocC10, defaultExcludeSelectors, applyExclusions,
      removeMatching, removeKids, nodeMatches, splitSpaceAux, extractFromElement,
      childDescendants, descendantsList, isTag, attrOf, tagOf, textContent,
      textContentList, otherTextsList, otherTexts, otherTextExcludedTags,
      trimS, trimChars, isWSChar]

/-- Witness for C10 at the empty option bag. -/
theorem default_exclusions_witness :
    (mkOptions {}).excludeSelectors = defaultExcludeSelectors :=
  (default_exclusions {} rfl).1
